import Mathlib

/-!
Verification of the 3NWeb WASM message-passing module (version 1),
`src/wasm_mp1.rs`, against its natural-language specification.

The module keeps a single mutable `MsgExchangeBufferInfo` record (pointer,
length, layout) describing one exchange buffer, a registered message
processor, and four operations: `_3nweb_mp1_get_buffer`, `send_msg_out`,
`_3nweb_mp1_accept_msg` and `set_msg_processor`.  We embed the module as
pure state-passing functions over an explicit machine state.  Linear memory
is a total byte map `Nat → Nat`; the global allocator is a parameter
`allocF : A → Nat → Nat × A` (the Rust code calls `std::alloc::alloc`,
which is environment-provided and may return null); every operation also
returns the list of observable events it performs (allocations,
deallocations, buffer reads, host notifications, processor invocations),
so that claims of the form "performs no allocation" or "invokes the
processor exactly once" are directly statable.
-/

namespace WasmMp1

/-- Mirrors the Rust `struct MsgExchangeBufferInfo { ptr, len, layout }`.
`ptr` is the buffer address (`0` is the null pointer the static is
initialised with), `len` the tracked capacity, and `layout` the layout of
the current allocation (`none` before any allocation; we record a
`Layout::array::<u8>(n)` simply by its size `n`, since its alignment is 1). -/
structure MsgExchangeBufferInfo where
  ptr : Nat
  len : Nat
  layout : Option Nat
deriving Repr, DecidableEq

/-- The initial value of the `static mut BUFFER_INFO`:
`{ ptr: 0 as *mut u8, len: 0, layout: None }`. -/
def initialBufferInfo : MsgExchangeBufferInfo :=
  { ptr := 0, len := 0, layout := none }

/-- Observable events of a run.  `P` is the (abstract) type of message
processor callbacks. -/
inductive Event (P : Type) where
  | allocEv (size addr : Nat)
  | deallocEv (addr lay : Nat)
  | memReadEv (addr byte : Nat)
  | notifyEv (addr len : Nat)
  | invokeEv (proc : P) (msg : List Nat)
deriving Repr, DecidableEq

/-- `true` exactly on processor-invocation events. -/
def isInvokeEv {P : Type} : Event P → Bool
  | Event.invokeEv _ _ => true
  | _ => false

/-- `true` exactly on allocation events. -/
def isAllocEv {P : Type} : Event P → Bool
  | Event.allocEv _ _ => true
  | _ => false

/-- `true` exactly on deallocation events. -/
def isDeallocEv {P : Type} : Event P → Bool
  | Event.deallocEv _ _ => true
  | _ => false

/-- `true` exactly on buffer-read events. -/
def isMemReadEv {P : Type} : Event P → Bool
  | Event.memReadEv _ _ => true
  | _ => false

/-- The whole mutable state of the module: the `BUFFER_INFO` static, the
allocator's private state (`A`), linear memory, and the `MSG_PROCESSOR`
static (`Option P`). -/
structure MachineState (A P : Type) where
  bufferInfo : MsgExchangeBufferInfo
  heap : A
  mem : Nat → Nat
  msgProcessor : Option P

/-- Embedding of `_3nweb_mp1_get_buffer(buf_size)`, line for line:
if a layout exists and `BUFFER_INFO.len <= buf_size`, the existing pointer
is returned unchanged; otherwise the old region (if any) is deallocated and
a fresh `buf_size`-byte region is allocated, `len` and `layout` are set to
`buf_size`, and the new pointer is returned. -/
def _3nweb_mp1_get_buffer {A P : Type} (allocF : A → Nat → Nat × A)
    (st : MachineState A P) (buf_size : Nat) :
    Nat × MachineState A P × List (Event P) :=
  match st.bufferInfo.layout with
  | some lay =>
      if st.bufferInfo.len ≤ buf_size then
        (st.bufferInfo.ptr, st, [])
      else
        ((allocF st.heap buf_size).1,
         { st with
             bufferInfo :=
               { ptr := (allocF st.heap buf_size).1, len := buf_size,
                 layout := some buf_size },
             heap := (allocF st.heap buf_size).2 },
         [Event.deallocEv st.bufferInfo.ptr lay,
          Event.allocEv buf_size (allocF st.heap buf_size).1])
  | none =>
      ((allocF st.heap buf_size).1,
       { st with
           bufferInfo :=
             { ptr := (allocF st.heap buf_size).1, len := buf_size,
               layout := some buf_size },
           heap := (allocF st.heap buf_size).2 },
       [Event.allocEv buf_size (allocF st.heap buf_size).1])

/-- `ptr::copy(msg.as_ptr(), ptr, msg.len())` on flat memory: byte `i` of
`msg` is written at address `ptr + i`; all other addresses keep their value. -/
def writeBytes (mem : Nat → Nat) (ptr : Nat) (msg : List Nat) : Nat → Nat :=
  fun a => if ptr ≤ a ∧ a < ptr + msg.length then msg.getD (a - ptr) (mem a) else mem a

/-- Embedding of `send_msg_out(msg)`: when `BUFFER_INFO.len < msg.len()` it
first calls `_3nweb_mp1_get_buffer(msg.len())`, then copies `msg` to
`BUFFER_INFO.ptr` and notifies the host (`_3nweb_mp1_send_out_msg`) of
`(BUFFER_INFO.ptr, msg.len())`; the notification is the `notifyEv` event. -/
def send_msg_out {A P : Type} (allocF : A → Nat → Nat × A)
    (st : MachineState A P) (msg : List Nat) :
    MachineState A P × List (Event P) :=
  let stEv : MachineState A P × List (Event P) :=
    if st.bufferInfo.len < msg.length then
      ((_3nweb_mp1_get_buffer allocF st msg.length).2.1,
       (_3nweb_mp1_get_buffer allocF st msg.length).2.2)
    else (st, [])
  ({ stEv.1 with mem := writeBytes stEv.1.mem stEv.1.bufferInfo.ptr msg },
   stEv.2 ++ [Event.notifyEv stEv.1.bufferInfo.ptr msg.length])

/-- Embedding of `read_msg_from_buffer(len)`:
`Vec::from(slice::from_raw_parts(BUFFER_INFO.ptr, len))`, i.e. a fresh list
holding bytes `ptr, ptr+1, …, ptr+len-1` of linear memory. -/
def read_msg_from_buffer (mem : Nat → Nat) (ptr len : Nat) : List Nat :=
  (List.range len).map (fun i => mem (ptr + i))

/-- The read events performed by `read_msg_from_buffer`: one per byte read. -/
def readEvents {P : Type} (mem : Nat → Nat) (ptr len : Nat) : List (Event P) :=
  (List.range len).map (fun i => Event.memReadEv (ptr + i) (mem (ptr + i)))

/-- Embedding of `set_msg_processor(processor)`:
`MSG_PROCESSOR = Some(processor)`. -/
def set_msg_processor {A P : Type} (st : MachineState A P) (p : P) :
    MachineState A P :=
  { st with msgProcessor := some p }

/-- Embedding of `_3nweb_mp1_accept_msg(len)`: builds
`msg = if len > 0 { read_msg_from_buffer(len) } else { Vec::new() }` and,
when `MSG_PROCESSOR` is `Some(p)`, invokes `p(msg)` (the `invokeEv` event);
when it is `None` nothing further happens. -/
def _3nweb_mp1_accept_msg {A P : Type} (st : MachineState A P) (len : Nat) :
    MachineState A P × List (Event P) :=
  let msg : List Nat :=
    if len > 0 then read_msg_from_buffer st.mem st.bufferInfo.ptr len else []
  let evs : List (Event P) :=
    if len > 0 then readEvents st.mem st.bufferInfo.ptr len else []
  match st.msgProcessor with
  | some p => (st, evs ++ [Event.invokeEv p msg])
  | none => (st, evs)

/-- A well-behaved model allocator: a bump allocator whose state is the next
free address; it returns fresh, distinct addresses.  (The Rust code uses the
global allocator; any successful allocator refines this shape.) -/
def bumpAlloc (next : Nat) (size : Nat) : Nat × Nat :=
  (next, next + size)

/-- A model of allocator failure: `alloc` returns the null pointer `0`. -/
def failAlloc (u : Unit) (_size : Nat) : Nat × Unit :=
  (0, u)

/-- The machine state at guest-instance startup (bump allocator, zeroed
memory, no processor registered); the bump pointer starts at 1 so address 0
remains the null pointer. -/
def initState : MachineState Nat Nat :=
  { bufferInfo := initialBufferInfo, heap := 1, mem := fun _ => 0,
    msgProcessor := none }

/-- A state in which a 1-byte exchange buffer is already allocated at
address 1 (bump pointer at 2). -/
def smallBufState : MachineState Nat Nat :=
  { bufferInfo := { ptr := 1, len := 1, layout := some 1 }, heap := 2,
    mem := fun _ => 0, msgProcessor := none }

/-- A state in which a 10-byte exchange buffer is already allocated at
address 1 (bump pointer at 11). -/
def bigBufState : MachineState Nat Nat :=
  { bufferInfo := { ptr := 1, len := 10, layout := some 10 }, heap := 11,
    mem := fun _ => 0, msgProcessor := none }

/-- C1: `send` of a 2-byte message from a state whose exchange buffer has
capacity 1 does NOT obtain a sufficiently large region first: the
`_3nweb_mp1_get_buffer(2)` call it makes reuses the existing 1-byte region
(because the code's comparison `BUFFER_INFO.len <= buf_size` is inverted),
so no allocation happens, the tracked capacity at copy time is still 1,
and `ptr::copy` writes 2 bytes into a 1-byte allocation. -/
theorem c1_send_copies_into_undersized_region :
    ((send_msg_out bumpAlloc smallBufState [7, 7]).1.bufferInfo =
      { ptr := 1, len := 1, layout := some 1 }) ∧
    ((send_msg_out bumpAlloc smallBufState [7, 7]).2 =
      [Event.notifyEv 1 2]) ∧
    (send_msg_out bumpAlloc smallBufState [7, 7]).1.bufferInfo.len <
      ([7, 7] : List Nat).length := by
  refine ⟨rfl, rfl, ?_⟩
  decide

/-- C2: requesting size 5 from a state whose tracked capacity is 1
(5 > 1) returns the OLD address unchanged, performs no deallocation and
no allocation, and leaves the tracked capacity at 1 instead of setting it
to 5: the growth branch of `ensure_capacity` never runs because the code's
comparison is inverted. -/
theorem c2_grow_request_keeps_old_region :
    _3nweb_mp1_get_buffer bumpAlloc smallBufState 5 =
      (1, smallBufState, []) := rfl

/-- C3: requesting size 5 from a state whose tracked capacity is 10
(5 ≤ 10) deallocates the existing region, allocates a fresh 5-byte region
at a new address, and SHRINKS the tracked capacity to 5 — instead of the
claimed no-op reuse — because the code's comparison is inverted. -/
theorem c3_shrink_request_reallocates :
    _3nweb_mp1_get_buffer bumpAlloc bigBufState 5 =
      (11,
       { bigBufState with
           bufferInfo := { ptr := 11, len := 5, layout := some 5 },
           heap := 16 },
       [Event.deallocEv 1 10, Event.allocEv 5 11]) := rfl

/-- C4: the tracked capacity is NOT monotonically non-decreasing: starting
from the uninitialised state, `_3nweb_mp1_get_buffer 10` sets capacity 10,
and a following `_3nweb_mp1_get_buffer 5` drops it to 5 < 10. -/
theorem c4_capacity_can_decrease :
    ((_3nweb_mp1_get_buffer bumpAlloc initState 10).2.1.bufferInfo.len = 10) ∧
    ((_3nweb_mp1_get_buffer bumpAlloc
        (_3nweb_mp1_get_buffer bumpAlloc initState 10).2.1 5).2.1.bufferInfo.len
      = 5) ∧ 5 < 10 := by
  refine ⟨rfl, rfl, ?_⟩
  decide

/-- The initial machine state run against the failing allocator. -/
def initStateFail : MachineState Unit Nat :=
  { bufferInfo := initialBufferInfo, heap := (), mem := fun _ => 0,
    msgProcessor := none }

/-- C5: when the allocator returns null, `_3nweb_mp1_get_buffer` does not
abort: it stores the null pointer in `BUFFER_INFO` (with the full requested
capacity recorded) and returns it to the caller.  The code never checks the
result of `alloc`. -/
theorem c5_null_alloc_is_returned :
    ((_3nweb_mp1_get_buffer failAlloc initStateFail 8).1 = 0) ∧
    ((_3nweb_mp1_get_buffer failAlloc initStateFail 8).2.1.bufferInfo =
      { ptr := 0, len := 8, layout := some 8 }) := ⟨rfl, rfl⟩

/-- A state with a processor (labelled `0`) registered and memory holding
byte `a + 1` at every address `a`. -/
def procState : MachineState Nat Nat :=
  { bufferInfo := initialBufferInfo, heap := 1, mem := fun a => a + 1,
    msgProcessor := some 0 }

theorem readEvents_filter_invoke {P : Type} (mem : Nat → Nat) (ptr len : Nat) :
    (readEvents mem ptr len : List (Event P)).filter isInvokeEv = [] := by
  rw [List.filter_eq_nil_iff]
  intro a ha
  simp only [readEvents, List.mem_map, List.mem_range] at ha
  obtain ⟨i, _, rfl⟩ := ha
  simp [isInvokeEv]

theorem readEvents_countP_invoke {P : Type} (mem : Nat → Nat) (ptr len : Nat) :
    (readEvents mem ptr len : List (Event P)).countP isInvokeEv = 0 := by
  rw [List.countP_eq_zero]
  intro a ha
  simp only [readEvents, List.mem_map, List.mem_range] at ha
  obtain ⟨i, _, rfl⟩ := ha
  simp [isInvokeEv]

/-- C6: with a processor `p` registered, `_3nweb_mp1_accept_msg 0`
produces exactly one event: the invocation of `p` with the empty message.
In particular no buffer region is requested (no alloc/dealloc event) and
the exchange buffer is not read (no read event). -/
theorem c6_accept_zero_invokes_with_empty_msg {A P : Type}
    (st : MachineState A P) (p : P) (h : st.msgProcessor = some p) :
    (_3nweb_mp1_accept_msg st 0).2 = [Event.invokeEv p []] := by
  simp [_3nweb_mp1_accept_msg, h]

/-- C6 witness: concrete run of `accept 0` with processor `0` registered. -/
theorem c6_accept_zero_invokes_with_empty_msg_witness :
    (_3nweb_mp1_accept_msg procState 0).2 = [Event.invokeEv 0 []] :=
  c6_accept_zero_invokes_with_empty_msg procState 0 rfl

/-- C7: for every state and every length, `_3nweb_mp1_accept_msg` invokes
the processor exactly once when one is registered and zero times when none
is, and in all cases at most once; the no-processor case is an ordinary
return (the message is read and discarded), not an error. -/
theorem c7_accept_invokes_processor_at_most_once {A P : Type}
    (st : MachineState A P) (len : Nat) :
    ((_3nweb_mp1_accept_msg st len).2.countP isInvokeEv =
      if st.msgProcessor.isSome then 1 else 0) ∧
    (_3nweb_mp1_accept_msg st len).2.countP isInvokeEv ≤ 1 := by
  have h0 : ((if len > 0 then readEvents st.mem st.bufferInfo.ptr len
      else []) : List (Event P)).countP isInvokeEv = 0 := by
    split
    · exact readEvents_countP_invoke st.mem st.bufferInfo.ptr len
    · rfl
  have hmain : (_3nweb_mp1_accept_msg st len).2.countP isInvokeEv =
      if st.msgProcessor.isSome then 1 else 0 := by
    cases hp : st.msgProcessor with
    | none => simpa [_3nweb_mp1_accept_msg, hp] using h0
    | some p =>
        simp only [_3nweb_mp1_accept_msg, hp, List.countP_append,
          Option.isSome_some, if_true]
        rw [h0]
        simp [List.countP_cons, List.countP_nil, isInvokeEv]
  refine ⟨hmain, ?_⟩
  rw [hmain]
  split <;> omega

/-- C8: for `len > 0` and processor `p` registered, `accept len` reads
bytes `ptr, …, ptr + len - 1` of the exchange buffer and invokes `p`
exactly once with `read_msg_from_buffer st.mem ptr len`, a freshly built
list of length `len` whose `j`-th byte equals byte `ptr + j` of memory at
call time (the list is a value, independent of any later buffer mutation). -/
theorem c8_delivered_message_is_buffer_bytes {A P : Type}
    (st : MachineState A P) (len : Nat) (p : P)
    (h : st.msgProcessor = some p) (hlen : 0 < len) :
    ((_3nweb_mp1_accept_msg st len).2 =
      readEvents st.mem st.bufferInfo.ptr len ++
        [Event.invokeEv p (read_msg_from_buffer st.mem st.bufferInfo.ptr len)]) ∧
    ((read_msg_from_buffer st.mem st.bufferInfo.ptr len).length = len) ∧
    (∀ j, j < len →
      (read_msg_from_buffer st.mem st.bufferInfo.ptr len).getD j 0 =
        st.mem (st.bufferInfo.ptr + j)) := by
  refine ⟨?_, ?_, ?_⟩
  · simp [_3nweb_mp1_accept_msg, h, hlen]
  · simp [read_msg_from_buffer]
  · intro j hj
    simp [read_msg_from_buffer, List.getD_eq_getElem?_getD, List.getElem?_map,
      List.getElem?_range hj]

/-- C8 witness: in `procState` (memory byte `a + 1` at address `a`,
buffer pointer 0), `accept 2` invokes processor `0` with the first two
buffer bytes. -/
theorem c8_delivered_message_is_buffer_bytes_witness :
    ((_3nweb_mp1_accept_msg procState 2).2 =
      readEvents procState.mem procState.bufferInfo.ptr 2 ++
        [Event.invokeEv 0
          (read_msg_from_buffer procState.mem procState.bufferInfo.ptr 2)]) ∧
    ((read_msg_from_buffer procState.mem procState.bufferInfo.ptr 2).length
      = 2) ∧
    ((read_msg_from_buffer procState.mem procState.bufferInfo.ptr 2).getD 1 0 =
      procState.mem (procState.bufferInfo.ptr + 1)) :=
  ⟨(c8_delivered_message_is_buffer_bytes procState 2 0 rfl (by decide)).1,
   (c8_delivered_message_is_buffer_bytes procState 2 0 rfl (by decide)).2.1,
   (c8_delivered_message_is_buffer_bytes procState 2 0 rfl (by decide)).2.2 1
     (by decide)⟩

/-- C9: `set_msg_processor` replaces any previous registration (last one
wins), and every subsequent `accept` delivers its message to the newly
registered processor: the invocation events of `accept len` after
registering `p` are exactly one invocation of `p` with the message read
from the buffer (empty when `len = 0`). -/
theorem c9_last_registration_wins {A P : Type} (st : MachineState A P)
    (p q : P) (len : Nat) :
    ((set_msg_processor st p).msgProcessor = some p) ∧
    ((set_msg_processor (set_msg_processor st q) p).msgProcessor = some p) ∧
    ((_3nweb_mp1_accept_msg (set_msg_processor st p) len).2.filter isInvokeEv =
      [Event.invokeEv p
        (if len > 0 then read_msg_from_buffer st.mem st.bufferInfo.ptr len
         else [])]) := by
  refine ⟨rfl, rfl, ?_⟩
  by_cases hl : len > 0 <;>
    simp [_3nweb_mp1_accept_msg, set_msg_processor, hl, List.filter_append,
      readEvents_filter_invoke, isInvokeEv]

/-- C10: `send_msg_out` of an empty message from any state in which no
exchange buffer has ever been allocated (the initial `BUFFER_INFO`) calls
the allocator not at all and emits exactly one event: the host
notification with address 0 (the null initial pointer) and length 0. -/
theorem c10_empty_send_notifies_null_zero {A P : Type}
    (allocF : A → Nat → Nat × A) (st : MachineState A P)
    (h : st.bufferInfo = initialBufferInfo) :
    ((send_msg_out allocF st []).2 = [Event.notifyEv 0 0]) ∧
    ((send_msg_out allocF st []).1.bufferInfo = initialBufferInfo) := by
  constructor <;> simp [send_msg_out, h, initialBufferInfo]

/-- C10 witness: concrete empty send from the startup state. -/
theorem c10_empty_send_notifies_null_zero_witness :
    ((send_msg_out bumpAlloc initState []).2 = [Event.notifyEv 0 0]) ∧
    ((send_msg_out bumpAlloc initState []).1.bufferInfo = initialBufferInfo) :=
  c10_empty_send_notifies_null_zero bumpAlloc initState rfl

end WasmMp1
